import Mathlib

/-!
Verification of the decision core of the patient conversational-intake
assistant (repository: patient-conversational-ai).

Shallow embedding conventions.

Text model: every component of the source lowercases its input before regex
matching (re.I flags, explicit .lower() calls), and all of the safety-relevant
regexes are whole-word or phrase matches over space-separated words.  We model
a turn text as the list of its lowercased, whitespace-separated word tokens
(List String); a phrase is a list of word tokens; a phrase occurs at position
i when it matches the token slice starting at i, mirroring a "\b...\b" regex
match.  Substring checks of the source (Python "kw in text") are modelled with
an explicit character-level infix scan over the string.

Numbers: Python ints become Nat, Python floats arising from the duration
cascade become Rat (the cascade only performs exact /24, *7 arithmetic on
decimal literals).  Python dicts with fixed key sets become structures; a
missing optional key whose only use is a falsy test (draft.get("disclaimer")
or default) is modelled as the empty string, matching how the code treats
empty and missing alike.

External capabilities (spaCy entities, the vector store, the OpenAI call) are
abstracted: entity lists are unused by every claim; retrieval category lists
and the external-arbiter outcome enter as explicit parameters exactly at the
points where the source consumes their results.
-/

/-! ## Character and token primitives -/

/-- Decidable list-prefix test (structural recursion, kernel-reducible). -/
def listPrefixB {α : Type} [DecidableEq α] : List α → List α → Bool
  | _ :: _, [] => false
  | [], _ => true
  | x :: xs, y :: ys => (x == y) && listPrefixB xs ys

/-- Decidable list-infix test: does `needle` occur contiguously in `hay`? -/
def listInfixB {α : Type} [DecidableEq α] (needle : List α) : List α → Bool
  | [] => needle.isEmpty
  | a :: tl => listPrefixB needle (a :: tl) || listInfixB needle tl

/-- Lowercase a string character by character (models Python str.lower for
the ASCII texts handled by the source regexes). -/
def lowerStr (s : String) : String := ⟨s.data.map Char.toLower⟩

/-- Python str.strip restricted to spaces. -/
def trimStr (s : String) : String :=
  ⟨((s.data.dropWhile (· == ' ')).reverse.dropWhile (· == ' ')).reverse⟩

/-- Split a character list on spaces, dropping empty fragments. -/
def splitSpacesAux : List Char → List Char → List (List Char)
  | [], acc => if acc.isEmpty then [] else [acc.reverse]
  | c :: rest, acc =>
    if c == ' ' then
      (if acc.isEmpty then splitSpacesAux rest [] else acc.reverse :: splitSpacesAux rest [])
    else splitSpacesAux rest (c :: acc)

/-- Tokenize: lowercase and split on whitespace.  This is the bridge from the
raw strings of the HTTP layer to the word-token model used by the pattern
matchers. -/
def tokenize (s : String) : List String :=
  (splitSpacesAux (lowerStr s).data []).map fun cs => ⟨cs⟩

/-- Does phrase `p` match the token list `t` at position `i`?
Models a `\b phrase \b` regex hit starting at word `i`. -/
def matchAt (t p : List String) (i : Nat) : Bool :=
  !p.isEmpty && listPrefixB p (t.drop i)

/-- Does phrase `p` occur anywhere in `t`? -/
def occursB (t p : List String) : Bool :=
  (List.range t.length).any (matchAt t p)

/-- Substring test on strings (Python `needle in hay`). -/
def strContains (hay needle : String) : Bool := listInfixB needle.data hay.data

/-- Leading-digit split of a token: returns the numeric value of the leading
`\d+(\.\d+)?` part (if any) and the remaining characters, mirroring how the
source regexes allow a unit to be glued to the number (`12h`). -/
def splitNumSuffix (w : String) : Option (Rat × Nat × String) :=
  let ds := w.data.takeWhile Char.isDigit
  let rest := w.data.dropWhile Char.isDigit
  if ds.isEmpty then none
  else
    let whole : Nat := ds.foldl (fun n c => n * 10 + (c.toNat - 48)) 0
    match rest with
    | '.' :: tl =>
      let fs := tl.takeWhile Char.isDigit
      if fs.isEmpty then some ((whole : Rat), ds.length, ⟨rest⟩)
      else
        let frac : Nat := fs.foldl (fun n c => n * 10 + (c.toNat - 48)) 0
        some ((whole : Rat) + (frac : Rat) / ((10 : Rat) ^ fs.length), ds.length,
          ⟨tl.dropWhile Char.isDigit⟩)
    | _ => some ((whole : Rat), ds.length, ⟨rest⟩)

/-- Scan for the first `<number><unit>` hit where the unit either is glued to
the digits in the same token or stands as the following token, as the
`\b(\d+(?:\.\d+)?)\s*(unit)\b` regexes do.  Returns the numeric value. -/
def numUnitScan (units : List String) (ts : List String) : Option Rat :=
  (List.range ts.length).findSome? fun i =>
    match splitNumSuffix (ts.getD i "") with
    | some (q, _, "") => if units.contains (ts.getD (i + 1) "…") then some q else none
    | some (q, _, u) => if units.contains u then some q else none
    | none => none

/-- Scan for the first `<int:1-3 digits><age-unit>` hit, returning the value
and the unit that matched (regexes `AGE_RE` / `_AGE_RE`). -/
def ageUnitScan (units : List String) (ts : List String) : Option (Nat × String) :=
  (List.range ts.length).findSome? fun i =>
    match splitNumSuffix (ts.getD i "") with
    | some (q, nd, "") =>
      if nd ≤ 3 && units.contains (ts.getD (i + 1) "…") then
        some (q.num.toNat, ts.getD (i + 1) "…")
      else none
    | some (q, nd, u) =>
      if nd ≤ 3 && units.contains u then some (q.num.toNat, u) else none
    | none => none

/-! ## NLU schema (app/nlu/schema.py)

`ExtractionResult`; the spaCy entity list is produced by an external
capability and read by no claim, so it is omitted here. -/

structure ExtractionResult where
  age : Option Nat := none
  pregnant : Bool := false
  duration_days : Option Rat := none
deriving DecidableEq, Repr

/-! ## Red-Flag Policy Engine (app/policies/red_flags.py) -/

namespace RedFlags

def NEGATORS : List String := ["no", "denies", "without"]

/-- `_present(text, kw)`: the keyword phrase occurs and no occurrence of it is
immediately preceded by a negator (regex
`\b(no|denies|without)\s+kw\b` vetoes, then `\bkw\b` must hit). -/
def negAt (t : List String) (i : Nat) : Bool :=
  0 < i && NEGATORS.contains (t.getD (i - 1) "")

def negOccursB (t p : List String) : Bool :=
  (List.range t.length).any fun i => matchAt t p i && negAt t i

def present (t p : List String) : Bool :=
  occursB t p && !negOccursB t p

/-- `_any(text, kws)` -/
def anyP (t : List String) (ps : List (List String)) : Bool := ps.any (present t)

/-- `_both(text, a, b)` -/
def bothP (t : List String) (a b : List (List String)) : Bool := anyP t a && anyP t b

inductive RStatus | EMERGENCY | URGENT
deriving DecidableEq, Repr

structure Verdict where
  status : RStatus
  message : String
  next_step : String
  rationale : String
deriving DecidableEq, Repr

/-- EMERGENCY fallback keyword set, with the phrase both as tokens and as the
literal string interpolated into the rationale.  The Python value is a set
literal; we fix the source-listed order (the claims proved below about the
fallback do not depend on the iteration order). -/
def EMERGENCY_KEYWORDS : List (List String × String) :=
  [ (["chest", "pain"], "chest pain"),
    (["pressure", "in", "chest"], "pressure in chest"),
    (["shortness", "of", "breath"], "shortness of breath"),
    (["can\x27t", "breathe"], "can\x27t breathe"),
    (["cant", "breathe"], "cant breathe"),
    (["severe", "bleeding"], "severe bleeding"),
    (["fainted"], "fainted"),
    (["pass", "out"], "pass out"),
    (["stroke"], "stroke"),
    (["weakness", "one", "side"], "weakness one side"),
    (["numbness", "one", "side"], "numbness one side"),
    (["seizure"], "seizure"),
    (["anaphylaxis"], "anaphylaxis"),
    (["swollen", "tongue"], "swollen tongue"),
    (["suicidal"], "suicidal"),
    (["suicide"], "suicide") ]

def URGENT_KEYWORDS : List (List String × String) :=
  [ (["stiff", "neck"], "stiff neck"),
    (["worst", "headache"], "worst headache"),
    (["pregnant", "bleeding"], "pregnant bleeding"),
    (["flank", "pain"], "flank pain"),
    (["blood", "in", "urine"], "blood in urine"),
    (["cannot", "keep", "fluids"], "cannot keep fluids") ]

/-- The `for kw in KEYWORDS: if _present(t, kw): return ...` loop. -/
def firstPresent (t : List String) : List (List String × String) → Option String
  | [] => none
  | (p, s) :: rest => if present t p then some s else firstPresent t rest

/-- Rule group 1: cardio-respiratory combo. -/
def cond_cardio (t : List String) : Bool :=
  anyP t [["crushing", "chest", "pain"], ["chest", "pain"]] &&
  anyP t [["shortness", "of", "breath"], ["cant", "breathe"], ["can’t", "breathe"],
    ["breathless"]]

/-- Rule group 2a: worst headache. -/
def cond_headache (t : List String) : Bool :=
  anyP t [["worst", "headache", "of", "my", "life"], ["worst", "headache"],
    ["thunderclap", "headache"]]

/-- Rule group 2b: fever with stiff neck. -/
def cond_meningitis (t : List String) : Bool :=
  bothP t [["stiff", "neck"], ["neck", "stiffness"]] [["fever"], ["high", "fever"]]

/-- Rule group 2c: acute neurologic symptom. -/
def cond_neuro (t : List String) : Bool :=
  anyP t [["confusion"], ["disoriented"], ["slurred", "speech"],
    ["weakness", "on", "one", "side"], ["numbness", "on", "one", "side"],
    ["face", "droop"], ["vision", "loss"], ["seizure"]]

/-- Rule group 3: anaphylaxis features. -/
def cond_anaphylaxis (t : List String) : Bool :=
  anyP t [["tongue", "swelling"], ["lip", "swelling"], ["swollen", "tongue"],
    ["swollen", "lips"]] ||
  bothP t [["hives"], ["widespread", "rash"]]
    [["shortness", "of", "breath"], ["wheeze"], ["trouble", "breathing"]]

/-- Rule group 4: pregnancy plus severe symptom. -/
def cond_pregnancy (t : List String) (ext : ExtractionResult) : Bool :=
  ext.pregnant &&
  anyP t [["severe", "abdominal", "pain"], ["heavy", "bleeding"], ["vaginal", "bleeding"]]

/-- Rule group 5: infant fever (`ext.age is not None and ext.age < 3`). -/
def cond_infant (t : List String) (ext : ExtractionResult) : Bool :=
  (match ext.age with
   | some a => decide (a < 3)
   | none => false) &&
  anyP t [["fever"], ["temperature"], ["high", "fever"]]

/-- Rule group 6: overdose / poisoning. -/
def cond_overdose (t : List String) : Bool :=
  anyP t [["overdose"], ["took", "too", "many", "pills"], ["took", "too", "much"],
    ["ingested", "bleach"], ["ingested", "chemical"], ["poisoned"], ["drank", "poison"]]

/-- Trauma phrases are plain `re.search` patterns (no negation filter). -/
def trauma_fall (t : List String) : Bool :=
  occursB t ["fell", "down", "the", "stairs"] || occursB t ["fell", "down", "stairs"] ||
  occursB t ["fell", "from"] || occursB t ["serious", "fall"] ||
  occursB t ["head", "injury"] || occursB t ["hit", "my", "head"] ||
  occursB t ["knocked", "my", "head"]

def loc_or_vomit (t : List String) : Bool :=
  anyP t [["loss", "of", "consciousness"], ["lost", "consciousness"], ["passed", "out"],
    ["blacked", "out"], ["knocked", "out"], ["vomiting"], ["throwing", "up"],
    ["threw", "up"]]

/-- Rule group 7: head trauma plus LOC or vomiting. -/
def cond_trauma (t : List String) : Bool := trauma_fall t && loc_or_vomit t

/-- Rule group 8: mental-health crisis. -/
def cond_mh (t : List String) : Bool :=
  anyP t [["suicidal"], ["kill", "myself"], ["harmed", "myself"], ["self-harm"],
    ["can\x27t", "stay", "safe"], ["cant", "stay", "safe"]]

/-- Rule group 9 (URGENT): UTI with systemic features. -/
def cond_uti (t : List String) : Bool :=
  bothP t [["burning", "urination"], ["painful", "urination"], ["dysuria"]]
    [["fever"], ["back", "pain"], ["flank", "pain"]]

/-- `check_red_flags_detail(text, ext)`: the rule chain in source order. -/
def check_red_flags_detail (t : List String) (ext : ExtractionResult) : Option Verdict :=
  if cond_cardio t then
    some ⟨.EMERGENCY,
      "Your symptoms could be serious. Please call 112 or go to the nearest emergency department now.",
      "Call 112 / go to ER.", "red_flags: chest pain + shortness of breath"⟩
  else if cond_headache t then
    some ⟨.EMERGENCY, "Severe sudden headache can be serious. Please call 112 or go to the ER.",
      "Call 112 / go to ER.", "red_flags: worst headache"⟩
  else if cond_meningitis t then
    some ⟨.EMERGENCY, "Fever with stiff neck needs urgent assessment. Please call 112 or go to the ER.",
      "Call 112 / go to ER.", "red_flags: fever + stiff neck"⟩
  else if cond_neuro t then
    some ⟨.EMERGENCY, "Neurologic symptoms need emergency care. Please call 112 or go to the ER.",
      "Call 112 / go to ER.", "red_flags: acute neurologic symptom"⟩
  else if cond_anaphylaxis t then
    some ⟨.EMERGENCY, "Possible severe allergic reaction. Call 112 or go to the ER immediately.",
      "Call 112 / go to ER.", "red_flags: anaphylaxis features"⟩
  else if cond_pregnancy t ext then
    some ⟨.EMERGENCY,
      "During pregnancy, severe pain or bleeding needs emergency care. Call 112 or go to the ER.",
      "Call 112 / go to ER.", "red_flags: pregnancy + severe symptom"⟩
  else if cond_infant t ext then
    some ⟨.EMERGENCY,
      "Fever in a baby under 3 months needs emergency assessment. Call 112 or go to the ER.",
      "Call 112 / go to ER.", "red_flags: infant (<3 months) + fever"⟩
  else if cond_overdose t then
    some ⟨.EMERGENCY, "Possible poisoning/overdose. Call 112 or contact emergency services immediately.",
      "Call 112 / go to ER.", "red_flags: overdose/poisoning"⟩
  else if cond_trauma t then
    some ⟨.EMERGENCY, "Head injury with concerning features needs emergency care. Call 112 or go to the ER.",
      "Call 112 / go to ER.", "red_flags: trauma + LOC/vomiting"⟩
  else if cond_mh t then
    some ⟨.EMERGENCY,
      "You deserve immediate support. If you are in danger, call 112 now. If you can, seek urgent help from local crisis services.",
      "Call 112 / go to ER.", "red_flags: mental health crisis"⟩
  else if cond_uti t then
    some ⟨.URGENT, "Urinary symptoms with fever or back/flank pain need same-day care.",
      "Seek same-day urgent care or contact your GP today.",
      "red_flags: UTI with systemic features"⟩
  else
    match firstPresent t EMERGENCY_KEYWORDS with
    | some s =>
      some ⟨.EMERGENCY, "Your symptoms may be serious. Please call 112 / go to ER.",
        "Call 112 / go to ER.", "red_flags: " ++ s⟩
    | none =>
      match firstPresent t URGENT_KEYWORDS with
      | some s =>
        some ⟨.URGENT, "Your symptoms may need same-day care.",
          "Seek urgent care / contact your GP today.", "red_flags: " ++ s⟩
      | none => none

/-- Disjunction of the structured EMERGENCY rule groups 1 through 8 (every
source rule above the URGENT UTI rule). -/
def emergencyGroupFires (t : List String) (ext : ExtractionResult) : Bool :=
  cond_cardio t || cond_headache t || cond_meningitis t || cond_neuro t ||
  cond_anaphylaxis t || cond_pregnancy t ext || cond_infant t ext ||
  cond_overdose t || cond_trauma t || cond_mh t

/-- Hypothesis form for the negation claim: every occurrence of phrase `p`
in `t` is immediately preceded by a negator. -/
def allOccurrencesNegated (t p : List String) : Bool :=
  (List.range t.length).all fun i => !matchAt t p i || negAt t i

end RedFlags

/-! ## Slot Store (app/storage/memory.py) -/

namespace Memory

structure SessionState where
  age : Option Nat := none
  severity : Option String := none
  duration_days : Option Rat := none
  last_symptoms_text : Option String := none
deriving DecidableEq, Repr

def emptySession : SessionState := {}

/-- `_AGE_RE` units: `y(?:rs?|ears?)|yo|jahr(?:e|en)?|m(?:o|onths?)`. -/
def AGE_UNITS : List String :=
  ["yr", "yrs", "year", "years", "yo", "jahr", "jahre", "jahren", "mo", "month", "months"]

def MONTH_UNITS : List String := ["mo", "month", "months"]

/-- `parse_age(text)`: value of the first age-pattern match, unit dropped. -/
def parse_age (ts : List String) : Option Nat := (ageUnitScan AGE_UNITS ts).map (·.1)

/-- Severity keys in the order the alternation tries them: sorted by length,
longest first, ties in dict insertion order (Python
`sorted(keys, key=len, reverse=True)` is stable). -/
def SEVERITY_KEYS : List (List String × String) :=
  [ (["very", "severe"], "worst"),
    (["moderate"], "moderate"),
    (["not", "bad"], "mild"),
    (["okayish"], "mild"),
    (["intense"], "severe"),
    (["medium"], "moderate"),
    (["severe"], "severe"),
    (["strong"], "severe"),
    (["light"], "mild"),
    (["so-so"], "moderate"),
    (["worst"], "worst"),
    (["mild"], "mild") ]

/-- `parse_severity(text)`: leftmost match of the alternation, canonicalized. -/
def parse_severity (ts : List String) : Option String :=
  (List.range ts.length).findSome? fun i =>
    SEVERITY_KEYS.findSome? fun ks =>
      if matchAt ts ks.1 i then some ks.2 else none

def SYMPTOM_WORDS : List String :=
  ["cough", "fever", "sore throat", "headache", "abdominal", "stomach", "vomit",
   "diarrhea", "rash", "ear pain", "urination", "back pain", "shortness of breath"]

/-- `looks_like_symptoms(text)`: plain substring scan over the lowercased raw
string (`any(k in t for k in SYMPTOM_WORDS)`). -/
def looks_like_symptoms (s : String) : Bool :=
  SYMPTOM_WORDS.any fun k => strContains (lowerStr s) k

def DUR_HOURS_UNITS : List String := ["hours", "hour", "hrs", "hr", "h"]
def DUR_DAYS_UNITS : List String := ["days", "day", "d"]
def DUR_WEEKS_UNITS : List String := ["weeks", "week", "wks", "wk", "w"]

/-- `parse_duration_days(text)` (app/storage/memory.py): the duration cascade,
first matching rule wins: hours/24, days, weeks*7, "since yesterday" = 1,
"today" or "for a few hours" = 0.5, "a few days" or "couple of days" = 3. -/
def parse_duration_days (ts : List String) : Option Rat :=
  match numUnitScan DUR_HOURS_UNITS ts with
  | some q => some (q / 24)
  | none =>
  match numUnitScan DUR_DAYS_UNITS ts with
  | some q => some q
  | none =>
  match numUnitScan DUR_WEEKS_UNITS ts with
  | some q => some (q * 7)
  | none =>
  if occursB ts ["since", "yesterday"] then some 1
  else if occursB ts ["today"] || occursB ts ["for", "a", "few", "hours"] then some (1 / 2)
  else if occursB ts ["a", "few", "days"] || occursB ts ["couple", "of", "days"] then some 3
  else none

/-- `merge_turn(session, user_text)`: slots are overwritten only when the turn
supplies a value; the symptom text is replaced wholesale when the turn looks
symptomatic. -/
def merge_turn (s : SessionState) (msg : String) : SessionState :=
  let ts := tokenize msg
  { age := match parse_age ts with | some a => some a | none => s.age
    severity := match parse_severity ts with | some v => some v | none => s.severity
    duration_days := match parse_duration_days ts with | some d => some d | none => s.duration_days
    last_symptoms_text :=
      if looks_like_symptoms msg then some (trimStr msg) else s.last_symptoms_text }

/-- Join with single spaces (`" ".join(parts)`). -/
def joinSpace : List String → String
  | [] => ""
  | [x] => x
  | x :: y :: rest => x ++ " " ++ joinSpace (y :: rest)

/-- Rendering of a duration for the effective-text prefix.  (Python renders
the float repr; no claim inspects this string, it only has to be some fixed
deterministic rendering.) -/
def qRepr (q : Rat) : String :=
  if q.den == 1 then Int.repr q.num ++ ".0"
  else Int.repr q.num ++ "/" ++ Nat.repr q.den

/-- `build_effective_text(session, current_text)`. -/
def build_effective_text (s : SessionState) (cur : String) : String :=
  let parts : List String :=
    (match s.age with
     | some a => [Nat.repr a ++ " years old."]
     | none => []) ++
    (match s.severity with
     | some v => ["Severity: " ++ v]
     | none => []) ++
    (match s.duration_days with
     | some d => ["Duration: " ++ qRepr d ++ " days."]
     | none => []) ++
    (if looks_like_symptoms cur then [trimStr cur]
     else match s.last_symptoms_text with
          | some l => [l]
          | none => [])
  joinSpace (if parts.isEmpty then [trimStr cur] else parts)

end Memory

/-! ## Extractor (app/nlu/extractor.py) -/

namespace Extractor

/-- `AGE_RE` units: `y(?:rs?|ears?)|yo|jahr(?:e|en)?` — note: no month unit. -/
def AGE_UNITS : List String :=
  ["yr", "yrs", "year", "years", "yo", "jahr", "jahre", "jahren"]

def DUR_HOURS_UNITS : List String := ["hours", "hour", "hrs", "hr", "h"]
def DUR_DAYS_UNITS : List String := ["days", "day", "d"]
def DUR_WEEKS_UNITS : List String := ["weeks", "week", "wks", "wk", "w"]

/-- `_parse_duration_days(text)` (app/nlu/extractor.py): the same cascade as
the Slot Store, duplicated in the source. -/
def parse_duration_days (ts : List String) : Option Rat :=
  match numUnitScan DUR_HOURS_UNITS ts with
  | some q => some (q / 24)
  | none =>
  match numUnitScan DUR_DAYS_UNITS ts with
  | some q => some q
  | none =>
  match numUnitScan DUR_WEEKS_UNITS ts with
  | some q => some (q * 7)
  | none =>
  if occursB ts ["since", "yesterday"] then some 1
  else if occursB ts ["today"] || occursB ts ["for", "a", "few", "hours"] then some (1 / 2)
  else if occursB ts ["a", "few", "days"] || occursB ts ["couple", "of", "days"] then some 3
  else none

/-- `PREGNANCY_RE = \b(pregnan\w*|schwanger)\b`. -/
def pregnantTok (w : String) : Bool :=
  listPrefixB "pregnan".data w.data || w == "schwanger"

/-- `extract(text)`: regex-first heuristics.  The spaCy entity pass is an
external capability whose output no claim reads; it is omitted. -/
def extract (ts : List String) : ExtractionResult :=
  { age := (ageUnitScan AGE_UNITS ts).map (·.1)
    pregnant := ts.any pregnantTok
    duration_days := parse_duration_days ts }

end Extractor

/-! ## Dialogue Gate and Draft Composer (app/reasoner/triage.py) -/

inductive Status | ASK | SAFE | URGENT | EMERGENCY
deriving DecidableEq, Repr

/-- The turn draft with fields status, message, categories, next_step,
rationale, disclaimer.  A key the source leaves unset is the empty string or
empty list, which the finalization step treats exactly like a missing key. -/
structure Draft where
  status : Status
  message : String
  categories : List String
  next_step : String
  rationale : String
  disclaimer : String
deriving DecidableEq, Repr

namespace Triage

structure Ctx where
  has_duration : Bool
  has_age : Bool
  has_severity : Bool
deriving DecidableEq, Repr

/-- `needs_followup(ctx)`: duration, then age, then severity.  It receives
only the three slot flags - it never sees the turn text. -/
def needs_followup (ctx : Ctx) : Option String :=
  if !ctx.has_duration then some "How long has this been going on (e.g., hours, days, weeks)?"
  else if !ctx.has_age then some "How old are you?"
  else if !ctx.has_severity then some "How severe is it (mild, moderate, or severe)?"
  else none

/-- `_parse_severity(text)` in triage.py: substring checks on the lowercased
text; modelled as substring checks over each token. -/
def parse_severity_hint (ts : List String) : Option String :=
  if ts.any fun w => strContains w "severe" then some "severe"
  else if ts.any fun w => strContains w "moderate" then some "moderate"
  else if ts.any fun w => strContains w "mild" then some "mild"
  else none

/-- `_parse_duration_hint(text)`: light fallback parser (int days; hours
collapse to 0; weeks times 7). -/
def parse_duration_hint (ts : List String) : Option Rat :=
  match numUnitScan ["day", "days"] ts with
  | some q => some q
  | none =>
  match numUnitScan ["hour", "hours", "hr", "hrs"] ts with
  | some _ => some 0
  | none =>
  match numUnitScan ["week", "weeks", "wk", "wks"] ts with
  | some q => some (q * 7)
  | none => none

/-- `_safe_next_step(text, ext)`. -/
def safe_next_step (ts : List String) (ext : ExtractionResult) : String :=
  let sev := (parse_severity_hint ts).getD ""
  let days := match ext.duration_days with
    | some d => some d
    | none => parse_duration_hint ts
  if sev == "severe" then "Seek urgent care within 24 hours."
  else if sev == "moderate" then "Arrange a GP/primary care appointment in the next 24–48 hours."
  else match days with
    | some d => if d ≤ 3 then "Self-care and monitoring are reasonable; recheck if not improving."
                else "Arrange a GP/primary care appointment."
    | none => "Arrange a GP/primary care appointment."

/-- SAFE-branch message tone tweaks (substring scans in the source). -/
def safe_message (ts : List String) : String :=
  if ts.any (fun w => strContains w "urination") || ts.any (fun w => strContains w "peeing") ||
     ts.any (fun w => strContains w "dysuria") || occursB ts ["burning", "when", "peeing"] then
    "Your urinary symptoms can often be monitored initially if mild and short-lived."
  else if ts.any (fun w => strContains w "cough") || occursB ts ["sore", "throat"] ||
     ts.any (fun w => strContains w "cold") || occursB ts ["upper", "respiratory"] then
    "Upper-respiratory symptoms are commonly mild and self-limited if no red flags."
  else "Based on what you shared, this sounds suitable for initial self-care and monitoring."

/-- `triage(text, ext, ctx)`: red flags short-circuit, then the slot gate,
then the SAFE draft.  `ragCats` stands for `_collect_categories(search(...))`,
the category tags derived from the external retrieval call. -/
def triage (ts : List String) (ext : ExtractionResult) (ctx : Ctx) (ragCats : List String) :
    Draft :=
  match RedFlags.check_red_flags_detail ts ext with
  | some hit =>
    { status := match hit.status with | .EMERGENCY => .EMERGENCY | .URGENT => .URGENT
      message := hit.message
      categories := []
      next_step := hit.next_step
      rationale := hit.rationale
      disclaimer := "" }
  | none =>
    match needs_followup ctx with
    | some q =>
      { status := .ASK, message := q, categories := [], next_step := ""
        rationale := "missing_required_slots", disclaimer := "" }
    | none =>
      { status := .SAFE, message := safe_message ts, categories := ragCats
        next_step := safe_next_step ts ext, rationale := "safe_guidance", disclaimer := "" }

end Triage

/-! ## Self-Check Arbiter (app/safety/self_check.py) -/

namespace SelfCheck

inductive Action | APPROVE | REWRITE | BLOCK
deriving DecidableEq, Repr

structure SafetyVerdict where
  action : Action
  text : Option String := none
  reason : Option String := none
deriving DecidableEq, Repr

def FORBIDDEN_DIAGNOSTIC : List String :=
  ["you have ", "this is definitely", "guaranteed", "diagnosis is"]

def FORBIDDEN_MEDS : List String :=
  ["antibiotic", "amoxicillin", "penicillin", "ibuprofen 800", "prescription"]

def REQUIRE_DISCLAIMER_SNIPPET : String := "not a diagnosis"

/-- `_review_stub(draft, context)`: the rule tier.  Total by construction - it
can only inspect strings and return a verdict. -/
def review_stub (d : Draft) : SafetyVerdict :=
  let text := lowerStr (d.message ++ " " ++ d.next_step ++ " " ++ d.disclaimer)
  if FORBIDDEN_MEDS.any fun kw => strContains text kw then
    ⟨.BLOCK, some "For safety, I can’t provide medication instructions. Please see a clinician.",
      some "meds"⟩
  else if FORBIDDEN_DIAGNOSTIC.any fun kw => strContains text kw then
    ⟨.REWRITE, some "Based on what you shared, this can be due to several common causes. ",
      some "diagnostic_claim"⟩
  else if !strContains (lowerStr d.disclaimer) REQUIRE_DISCLAIMER_SNIPPET then
    ⟨.REWRITE, none, some "missing_disclaimer"⟩
  else ⟨.APPROVE, none, none⟩

/-- `review(draft, context)`.  The external tier is abstracted by its outcome:
`llmResult` is `.ok v` when `_review_llm` returns verdict `v`, and `.error ()`
when it raises for any reason (import failure, missing key mid-call, timeout,
transport error, malformed JSON, bad action value).  `llmEnabled` is the
`SAFETY_LLM` flag and `hasKey` is `bool(OPENAI_API_KEY)`. -/
def review (llmEnabled hasKey : Bool) (llmResult : Except Unit SafetyVerdict) (d : Draft) :
    SafetyVerdict :=
  if llmEnabled && hasKey then
    match llmResult with
    | .ok v => v
    | .error _ => review_stub d
  else review_stub d

end SelfCheck

/-! ## API layer (app/api/routes.py) -/

namespace Routes

def DEFAULT_DISCLAIMER : String :=
  "Educational guidance only; not a diagnosis; not for emergencies. If this is an emergency, call 112."

def BLOCKED_MESSAGE : String :=
  "For safety, I need more information before I can guide you. Can you describe your symptoms and duration?"

def strTake (n : Nat) (s : String) : String := ⟨s.data.take n⟩

/-- `_finalize_payload(result, effective_text)`: fill safe defaults.
`ragCats` stands for `_categories_from_docs(rag_search(effective_text, ...))`
(empty when retrieval fails - the code swallows that error). -/
def finalize (r : Draft) (ragCats : List String) : Draft :=
  { status := r.status
    message := r.message
    categories :=
      if r.status == .SAFE then (if r.categories.isEmpty then ragCats else r.categories)
      else r.categories
    next_step := r.next_step
    rationale := strTake 900 r.rationale
    disclaimer := if r.disclaimer == "" then DEFAULT_DISCLAIMER else r.disclaimer }

/-- The safety-verdict branch of `chat` (APPROVE / REWRITE / BLOCK). -/
def safetyStep (r : Draft) (v : SelfCheck.SafetyVerdict) : Draft :=
  match v.action with
  | .APPROVE => r
  | .REWRITE =>
    if listPrefixB "missing_disclaimer".data (lowerStr ((v.reason).getD "")).data then
      { r with disclaimer := DEFAULT_DISCLAIMER }
    else
      match v.text with
      | some tx => if tx == "" then r else { r with message := tx }
      | none => r
  | .BLOCK =>
    { status := .ASK
      message := BLOCKED_MESSAGE
      categories := []
      next_step := ""
      rationale := "blocked_by_safety_checker"
      disclaimer := if r.disclaimer == "" then DEFAULT_DISCLAIMER else r.disclaimer }

/-- One turn of `chat` after extraction, with the safety verdict `v` left
abstract: finalize the triage draft, apply the safety branch, re-finalize. -/
def chatProcess (ts : List String) (ext : ExtractionResult) (ctx : Triage.Ctx)
    (ragT rag1 rag2 : List String) (v : SelfCheck.SafetyVerdict) : Draft :=
  finalize (safetyStep (finalize (Triage.triage ts ext ctx ragT) rag1) v) rag2

/-- A full first turn on a fresh session with the external arbiter disabled:
session merge, effective text, extraction, triage, finalize, rule-tier safety
check, finalize.  Retrieval categories are empty (their value never affects
the status). -/
def freshTurn (msg : String) : Draft :=
  let sess := Memory.merge_turn Memory.emptySession msg
  let eff := Memory.build_effective_text sess msg
  let ts := tokenize eff
  let ext := Extractor.extract ts
  let ctx : Triage.Ctx :=
    ⟨sess.duration_days.isSome, sess.age.isSome, sess.severity.isSome⟩
  let r1 := finalize (Triage.triage ts ext ctx []) []
  finalize (safetyStep r1 (SelfCheck.review false false (.error ()) r1)) []

def freshTurnStatus (msg : String) : Status := (freshTurn msg).status

end Routes

/-! ## Retrieval Ranker (app/retrieval/rank.py)

`mmr_select` receives numpy vectors and computes two cosine-similarity
tables; everything after that is pure list selection.  The floating-point
tables are abstracted into the two score functions `qsim` (candidate vs
query) and `dsim` (candidate vs candidate), over `Rat`; the selection logic
below is a line-by-line translation of the loop. -/

namespace Rank

/-- Python `max(iterable, key=f)` keeps the first element on ties: the running
best is replaced only by a strictly greater key. -/
def pyMaxAux (f : Nat → Rat) : Nat → List Nat → Nat
  | best, [] => best
  | best, x :: xs => if f best < f x then pyMaxAux f x xs else pyMaxAux f best xs

def pyMax (f : Nat → Rat) : List Nat → Option Nat
  | [] => none
  | x :: xs => some (pyMaxAux f x xs)

/-- `max(dsim[i, s] for s in selected)` (only evaluated when nonempty). -/
def maxSim (dsim : Nat → Nat → Rat) (i : Nat) : List Nat → Rat
  | [] => 0
  | [s] => dsim i s
  | s :: s2 :: rest => max (dsim i s) (maxSim dsim i (s2 :: rest))

/-- `mmr_score(i)` for a given selected set. -/
def mmrScore (lam : Rat) (qsim : Nat → Rat) (dsim : Nat → Nat → Rat)
    (sel : List Nat) (i : Nat) : Rat :=
  lam * qsim i - (1 - lam) * maxSim dsim i sel

/-- The selection loop: each round removes the arg-max candidate (by query
similarity for the first pick, by MMR score afterwards). -/
def mmrGo (lam : Rat) (qsim : Nat → Rat) (dsim : Nat → Nat → Rat) :
    Nat → List Nat → List Nat → List Nat
  | 0, sel, _ => sel
  | fuel + 1, sel, cands =>
    match (if sel.isEmpty then pyMax qsim cands else pyMax (mmrScore lam qsim dsim sel) cands) with
    | none => sel
    | some best => mmrGo lam qsim dsim fuel (sel ++ [best]) (cands.erase best)

/-- `mmr_select(query_vec, doc_vecs, k, lambda_mult)`: `k = min(k, n)` and the
loop runs while candidates remain and fewer than `k` are selected. -/
def mmr_select (qsim : Nat → Rat) (dsim : Nat → Nat → Rat) (n k : Nat)
    (lam : Rat := 7 / 10) : List Nat :=
  mmrGo lam qsim dsim (min k n) [] (List.range n)

end Rank

/-! ## Concrete inputs used by witnesses and counterexamples -/

def c3wDraft : Draft :=
  ⟨Status.SAFE, "Rest and fluids.", [], "", "", "This is not a diagnosis; not for emergencies."⟩

def c10wDraft : Draft := ⟨Status.SAFE, "draft message", ["cat"], "draft step", "r", ""⟩

def c2Text : List String := ["burning", "urination", "with", "fever", "and", "severe", "bleeding"]

def c2wText : List String := ["chest", "pain", "and", "cant", "breathe"]

def c1wText : List String := ["no", "chest", "pain", "and", "seizure"]

def c1wVerdict : RedFlags.Verdict :=
  ⟨.EMERGENCY, "Neurologic symptoms need emergency care. Please call 112 or go to the ER.",
    "Call 112 / go to ER.", "red_flags: acute neurologic symptom"⟩

def c7q : Nat → Rat := fun i => [(2 : Rat), 5, 5].getD i 0

def c7d : Nat → Nat → Rat := fun _ _ => 0

def c7g : Nat → Rat := fun i => [(0 : Rat), 3, 3].getD i 0

/-! ## Helper lemmas -/

theorem listPrefixB_cons_ex {a : String} {as l : List String}
    (h : listPrefixB (a :: as) l = true) :
    ∃ tl, l = a :: tl ∧ listPrefixB as tl = true := by
  cases l with
  | nil => simp [listPrefixB] at h
  | cons b bs =>
    simp only [listPrefixB, Bool.and_eq_true, beq_iff_eq] at h
    exact ⟨bs, by rw [h.1], h.2⟩

theorem joinSpace_cons_ex (x : String) (xs : List String) :
    ∃ r, Memory.joinSpace (x :: xs) = x ++ r := by
  cases xs with
  | nil =>
    refine ⟨"", ?_⟩
    show x = x ++ ""
    cases x with
    | mk d => show String.mk d = String.mk (d ++ []) ; rw [List.append_nil]
  | cons y ys => exact ⟨" " ++ Memory.joinSpace (y :: ys), (String.append_assoc _ _ _)⟩

theorem firstPresent_some {t : List String} :
    ∀ {l : List (List String × String)} {s : String},
      RedFlags.firstPresent t l = some s →
      ∃ p, (p, s) ∈ l ∧ RedFlags.present t p = true := by
  intro l
  induction l with
  | nil => intro s h; simp [RedFlags.firstPresent] at h
  | cons ks rest ih =>
    intro s h
    obtain ⟨p, str⟩ := ks
    by_cases hp : RedFlags.present t p = true
    · simp only [RedFlags.firstPresent, hp, if_true, Option.some.injEq] at h
      exact ⟨p, by simp [h], hp⟩
    · simp only [RedFlags.firstPresent, hp, if_false, Bool.false_eq_true] at h
      obtain ⟨p2, hmem, hp2⟩ := ih h
      exact ⟨p2, List.mem_cons_of_mem _ hmem, hp2⟩

theorem triage_disclaimer_empty (ts : List String) (ext : ExtractionResult)
    (ctx : Triage.Ctx) (rag : List String) :
    (Triage.triage ts ext ctx rag).disclaimer = "" := by
  unfold Triage.triage
  cases RedFlags.check_red_flags_detail ts ext with
  | some hit => rfl
  | none =>
    cases Triage.needs_followup ctx with
    | some q => rfl
    | none => rfl

theorem finalize_disclaimer (r : Draft) (rag : List String) :
    (Routes.finalize r rag).disclaimer =
      if r.disclaimer == "" then Routes.DEFAULT_DISCLAIMER else r.disclaimer := rfl

theorem safetyStep_disclaimer_default {r : Draft} (v : SelfCheck.SafetyVerdict)
    (h : r.disclaimer = Routes.DEFAULT_DISCLAIMER) :
    (Routes.safetyStep r v).disclaimer = Routes.DEFAULT_DISCLAIMER := by
  obtain ⟨act, tx, rs⟩ := v
  cases act with
  | APPROVE => exact h
  | REWRITE =>
    simp only [Routes.safetyStep]
    split
    · rfl
    · cases tx with
      | none => exact h
      | some s =>
        by_cases hs : (s == "") = true
        · simp only [hs, if_true]; exact h
        · simp only [hs, if_false]; exact h
  | BLOCK =>
    simp only [Routes.safetyStep]
    rw [h]
    split <;> rfl

/-- Any hit in the structured EMERGENCY groups 1-8 makes the checker return
an EMERGENCY verdict (the groups are tried, in order, before everything that
can produce URGENT). -/
theorem check_status_emergency_of_groups (t : List String) (ext : ExtractionResult)
    (h : RedFlags.emergencyGroupFires t ext = true) :
    (RedFlags.check_red_flags_detail t ext).map RedFlags.Verdict.status
      = some RedFlags.RStatus.EMERGENCY := by
  unfold RedFlags.check_red_flags_detail
  by_cases h1 : RedFlags.cond_cardio t = true
  · simp [h1]
  by_cases h2 : RedFlags.cond_headache t = true
  · simp [h1, h2]
  by_cases h3 : RedFlags.cond_meningitis t = true
  · simp [h1, h2, h3]
  by_cases h4 : RedFlags.cond_neuro t = true
  · simp [h1, h2, h3, h4]
  by_cases h5 : RedFlags.cond_anaphylaxis t = true
  · simp [h1, h2, h3, h4, h5]
  by_cases h6 : RedFlags.cond_pregnancy t ext = true
  · simp [h1, h2, h3, h4, h5, h6]
  by_cases h7 : RedFlags.cond_infant t ext = true
  · simp [h1, h2, h3, h4, h5, h6, h7]
  by_cases h8 : RedFlags.cond_overdose t = true
  · simp [h1, h2, h3, h4, h5, h6, h7, h8]
  by_cases h9 : RedFlags.cond_trauma t = true
  · simp [h1, h2, h3, h4, h5, h6, h7, h8, h9]
  by_cases h10 : RedFlags.cond_mh t = true
  · simp [h1, h2, h3, h4, h5, h6, h7, h8, h9, h10]
  · exfalso
    simp only [RedFlags.emergencyGroupFires, Bool.or_eq_true, h1, h2, h3, h4, h5, h6, h7,
      h8, h9, h10, or_self, or_false, false_or] at h
    exact Bool.false_ne_true h


/-! ## Claim theorems -/

/-- Claim C3: the self-check review function is total, and whenever the
external tier is disabled (`SAFETY_LLM` off), lacks a credential (no
`OPENAI_API_KEY`), or fails in any way (modelled as the `.error` outcome of
the external call), `review` returns exactly the rule-tier verdict
`_review_stub(draft)`. -/
theorem C3_review_falls_back_to_stub (e k : Bool) (o : Except Unit SelfCheck.SafetyVerdict)
    (d : Draft) (h : e = false ∨ k = false ∨ o = .error ()) :
    SelfCheck.review e k o d = SelfCheck.review_stub d := by
  rcases h with rfl | rfl | rfl
  · rfl
  · cases e <;> rfl
  · cases e <;> cases k <;> rfl


theorem C3_review_falls_back_to_stub_witness :
    SelfCheck.review false true (Except.ok ⟨SelfCheck.Action.APPROVE, none, none⟩) c3wDraft =
      SelfCheck.review_stub c3wDraft :=
  C3_review_falls_back_to_stub false true _ c3wDraft (Or.inl rfl)

/-- Claim C8: the Slot Store duration parser (app/storage/memory.py
`parse_duration_days`) and the Extractor duration parser (app/nlu/extractor.py
`_parse_duration_days`) compute the same value on every input: both are the
identical cascade hours/24, days, weeks*7, "since yesterday" = 1.0,
"today" / "for a few hours" = 0.5, "a few days" / "couple of days" = 3.0,
first matching rule winning. -/
theorem C8_duration_cascades_agree (ts : List String) :
    Memory.parse_duration_days ts = Extractor.parse_duration_days ts := rfl

/-- Claim C6: on every turn of the chat endpoint — any message / session
state (hence any triage draft), any retrieval outcome, and any safety verdict
(APPROVE, REWRITE or BLOCK) — the released disclaimer is non-empty and
contains the canonical phrase "not a diagnosis". -/
theorem C6_disclaimer_always_canonical (ts : List String) (ext : ExtractionResult)
    (ctx : Triage.Ctx) (ragT rag1 rag2 : List String) (v : SelfCheck.SafetyVerdict) :
    (Routes.chatProcess ts ext ctx ragT rag1 rag2 v).disclaimer ≠ "" ∧
    strContains (Routes.chatProcess ts ext ctx ragT rag1 rag2 v).disclaimer
      "not a diagnosis" = true := by
  have h1 : (Routes.finalize (Triage.triage ts ext ctx ragT) rag1).disclaimer =
      Routes.DEFAULT_DISCLAIMER := by
    rw [finalize_disclaimer, triage_disclaimer_empty]
    rfl
  have h2 := safetyStep_disclaimer_default v h1
  have h3 : (Routes.chatProcess ts ext ctx ragT rag1 rag2 v).disclaimer =
      Routes.DEFAULT_DISCLAIMER := by
    unfold Routes.chatProcess
    rw [finalize_disclaimer, h2]
    split <;> rfl
  rw [h3]
  exact ⟨by decide, by decide⟩

/-- Claim C10: when the safety check returns BLOCK, the chat endpoint
discards the draft wholesale: after re-finalization the released payload is
exactly status ASK, the fixed clarifying question, empty categories, empty
next step, rationale "blocked_by_safety_checker", and the existing (or
default) disclaimer — nothing of the message or next_step of the blocked
draft survives. -/
theorem C10_block_discards_draft (r : Draft) (v : SelfCheck.SafetyVerdict)
    (rag : List String) (h : v.action = SelfCheck.Action.BLOCK) :
    Routes.finalize (Routes.safetyStep r v) rag =
      { status := Status.ASK, message := Routes.BLOCKED_MESSAGE, categories := [],
        next_step := "", rationale := "blocked_by_safety_checker",
        disclaimer := if r.disclaimer == "" then Routes.DEFAULT_DISCLAIMER
                      else r.disclaimer } := by
  obtain ⟨act, tx, rs⟩ := v
  simp only at h
  subst h
  have hT : Routes.strTake 900 "blocked_by_safety_checker" = "blocked_by_safety_checker" := by
    decide
  have hD : (Routes.DEFAULT_DISCLAIMER == "") = false := by decide
  by_cases hd : (r.disclaimer == "") = true
  · simp [Routes.safetyStep, Routes.finalize, hd, hD, hT]
  · simp [Routes.safetyStep, Routes.finalize, hd, hD, hT]


theorem C10_block_discards_draft_witness :
    Routes.finalize (Routes.safetyStep c10wDraft ⟨SelfCheck.Action.BLOCK, none, none⟩) ["x"] =
      { status := Status.ASK, message := Routes.BLOCKED_MESSAGE, categories := [],
        next_step := "", rationale := "blocked_by_safety_checker",
        disclaimer := if c10wDraft.disclaimer == "" then Routes.DEFAULT_DISCLAIMER
                      else c10wDraft.disclaimer } :=
  C10_block_discards_draft c10wDraft ⟨SelfCheck.Action.BLOCK, none, none⟩ ["x"] rfl


/-- Claim C2 counterexample: this text matches both an EMERGENCY-group
pattern (the fallback EMERGENCY keyword "severe bleeding" is present and
unnegated) and the URGENT UTI pattern, yet `check_red_flags_detail` returns
URGENT, because the URGENT UTI rule is evaluated before the EMERGENCY
keyword fallback. -/
theorem C2_counterexample :
    (RedFlags.check_red_flags_detail c2Text ⟨none, false, none⟩).map RedFlags.Verdict.status
      = some RedFlags.RStatus.URGENT ∧
    RedFlags.present c2Text ["severe", "bleeding"] = true ∧
    (["severe", "bleeding"], "severe bleeding") ∈ RedFlags.EMERGENCY_KEYWORDS := by
  refine ⟨by decide, by decide, by decide⟩

/-- Claim C2 (amended): a text matching any of the structured EMERGENCY rule
groups (groups 1-8, everything above the URGENT UTI rule) resolves to
EMERGENCY regardless of which URGENT patterns also match; the exception the
counterexample exhibits is a text whose only EMERGENCY evidence is in the
flat fallback keyword list, which loses to the URGENT UTI rule. -/
theorem C2_amended_emergency_groups_win (t : List String) (ext : ExtractionResult)
    (h : RedFlags.emergencyGroupFires t ext = true) :
    (RedFlags.check_red_flags_detail t ext).map RedFlags.Verdict.status
      = some RedFlags.RStatus.EMERGENCY :=
  check_status_emergency_of_groups t ext h

theorem C2_amended_emergency_groups_win_witness :
    (RedFlags.check_red_flags_detail c2wText ⟨none, false, none⟩).map RedFlags.Verdict.status
      = some RedFlags.RStatus.EMERGENCY :=
  C2_amended_emergency_groups_win c2wText ⟨none, false, none⟩ (by decide)

/-- Claim C5 counterexample: for a message with no symptom keyword and no
slots known, the Dialogue Gate emits the duration question, not a
symptom-eliciting question — the gate never inspects the text (its input is
only the three slot flags), so step (a) of the claim does not exist in the
code. -/
theorem C5_counterexample :
    (Triage.triage ["hello"] ⟨none, false, none⟩ ⟨false, false, false⟩ []).status = Status.ASK ∧
    (Triage.triage ["hello"] ⟨none, false, none⟩ ⟨false, false, false⟩ []).message =
      "How long has this been going on (e.g., hours, days, weeks)?" ∧
    Memory.looks_like_symptoms "hello" = false := by
  refine ⟨by decide, by decide, by decide⟩

/-- Claim C5 (amended): the Dialogue Gate inspects only the slot flags, in
the fixed order duration, then age, then severity; it performs no
symptom-keyword check and no text-level severity check (a severity word in
the current turn instead sets `has_severity` upstream, in the Slot Store).
Hence whenever no red flag fired and duration is unknown, the emitted
question is the duration question, for every text. -/
theorem C5_amended_gate_order (ts : List String) (ext : ExtractionResult)
    (ctx c : Triage.Ctx) (rag : List String)
    (hrf : RedFlags.check_red_flags_detail ts ext = none)
    (hd : ctx.has_duration = false) :
    (Triage.triage ts ext ctx rag).status = Status.ASK ∧
    (Triage.triage ts ext ctx rag).message =
      "How long has this been going on (e.g., hours, days, weeks)?" ∧
    Triage.needs_followup c =
      (if c.has_duration = false then
        some "How long has this been going on (e.g., hours, days, weeks)?"
       else if c.has_age = false then some "How old are you?"
       else if c.has_severity = false then
        some "How severe is it (mild, moderate, or severe)?"
       else none) := by
  have hq : Triage.needs_followup ctx =
      some "How long has this been going on (e.g., hours, days, weeks)?" := by
    unfold Triage.needs_followup
    rw [hd]
    rfl
  refine ⟨?_, ?_, ?_⟩
  · unfold Triage.triage
    rw [hrf, hq]
  · unfold Triage.triage
    rw [hrf, hq]
  · obtain ⟨d, a, s⟩ := c
    cases d <;> cases a <;> cases s <;> rfl

theorem C5_amended_gate_order_witness :
    (Triage.triage ["cough"] ⟨none, false, none⟩ ⟨false, false, false⟩ []).status = Status.ASK ∧
    (Triage.triage ["cough"] ⟨none, false, none⟩ ⟨false, false, false⟩ []).message =
      "How long has this been going on (e.g., hours, days, weeks)?" ∧
    Triage.needs_followup ⟨true, true, false⟩ =
      (if (Triage.Ctx.mk true true false).has_duration = false then
        some "How long has this been going on (e.g., hours, days, weeks)?"
       else if (Triage.Ctx.mk true true false).has_age = false then some "How old are you?"
       else if (Triage.Ctx.mk true true false).has_severity = false then
        some "How severe is it (mild, moderate, or severe)?"
       else none) :=
  C5_amended_gate_order ["cough"] ⟨none, false, none⟩ ⟨false, false, false⟩
    ⟨true, true, false⟩ [] (by decide) rfl

/-- Claim C4: whenever the extraction carries `age = some a` with `a < 3` (the
code compares the bare number `ext.age < 3`, whatever unit it came from) and
the text contains a non-negated fever-ish term, the Red-Flag Engine returns an
EMERGENCY verdict; and the message "My 2 month old has a fever" run through a
fresh turn of the pipeline ends in status EMERGENCY (the Slot Store stores the
month count, renders it as "2 years old.", and the Extractor year regex then
yields age 2 on the effective text). -/
theorem C4_infant_fever_emergency (t : List String) (ext : ExtractionResult) (a : Nat)
    (h1 : ext.age = some a) (h2 : a < 3)
    (h3 : RedFlags.anyP t [["fever"], ["temperature"], ["high", "fever"]] = true) :
    (RedFlags.check_red_flags_detail t ext).map RedFlags.Verdict.status
      = some RedFlags.RStatus.EMERGENCY ∧
    Routes.freshTurnStatus "My 2 month old has a fever" = Status.EMERGENCY := by
  constructor
  · apply check_status_emergency_of_groups
    have hinf : RedFlags.cond_infant t ext = true := by
      unfold RedFlags.cond_infant
      rw [h1, h3]
      simp [h2]
    simp [RedFlags.emergencyGroupFires, hinf]
  · decide

theorem C4_infant_fever_emergency_witness :
    ((RedFlags.check_red_flags_detail ["a", "fever"] ⟨some 2, false, none⟩).map
        RedFlags.Verdict.status = some RedFlags.RStatus.EMERGENCY) ∧
    Routes.freshTurnStatus "My 2 month old has a fever" = Status.EMERGENCY :=
  C4_infant_fever_emergency ["a", "fever"] ⟨some 2, false, none⟩ 2 rfl (by decide) (by decide)

/-- Claim C9: when the first age-pattern hit in a turn uses a month unit, the
Slot Store keeps the bare number (no division by 12), `merge_turn` stores it
in session.age, and build_effective_text renders the prefix consisting of
that number followed by " years old." — so an age given in months reaches
every downstream component as that same number of years. -/
theorem C9_month_age_rendered_as_years (msg : String) (n : Nat) (u : String)
    (h1 : ageUnitScan Memory.AGE_UNITS (tokenize msg) = some (n, u))
    (_hu : u ∈ Memory.MONTH_UNITS) :
    Memory.parse_age (tokenize msg) = some n ∧
    (Memory.merge_turn Memory.emptySession msg).age = some n ∧
    ∃ rest, Memory.build_effective_text (Memory.merge_turn Memory.emptySession msg) msg
      = Nat.repr n ++ " years old." ++ rest := by
  have hp : Memory.parse_age (tokenize msg) = some n := by
    unfold Memory.parse_age
    rw [h1]
    rfl
  have hm : (Memory.merge_turn Memory.emptySession msg).age = some n := by
    unfold Memory.merge_turn
    simp only [hp]
  refine ⟨hp, hm, ?_⟩
  unfold Memory.build_effective_text
  rw [hm]
  simp only [List.singleton_append, List.cons_append, List.isEmpty_cons, Bool.false_eq_true,
    if_false]
  exact joinSpace_cons_ex _ _

theorem C9_month_age_rendered_as_years_witness :
    ageUnitScan Memory.AGE_UNITS (tokenize "My 2 month old has a fever") = some (2, "month") ∧
    Memory.parse_age (tokenize "My 2 month old has a fever") = some 2 ∧
    (Memory.merge_turn Memory.emptySession "My 2 month old has a fever").age = some 2 :=
  ⟨by decide,
    (C9_month_age_rendered_as_years "My 2 month old has a fever" 2 "month"
      (by decide) (by decide)).1,
    (C9_month_age_rendered_as_years "My 2 month old has a fever" 2 "month"
      (by decide) (by decide)).2.1⟩

theorem allNeg_present_false {t : List String}
    (h : RedFlags.allOccurrencesNegated t ["chest", "pain"] = true) :
    RedFlags.present t ["chest", "pain"] = false := by
  unfold RedFlags.present
  cases hoc : occursB t ["chest", "pain"] with
  | false => rfl
  | true =>
    have hno : RedFlags.negOccursB t ["chest", "pain"] = true := by
      obtain ⟨i, hmem, hmi⟩ := List.any_eq_true.mp hoc
      have hall := List.all_eq_true.mp h i hmem
      rw [hmi] at hall
      simp only [Bool.not_true, Bool.false_or] at hall
      exact List.any_eq_true.mpr ⟨i, hmem, by simp [hmi, hall]⟩
    rw [hno]
    rfl

theorem allNeg_crushing_absent {t : List String}
    (h : RedFlags.allOccurrencesNegated t ["chest", "pain"] = true) :
    occursB t ["crushing", "chest", "pain"] = false := by
  cases hoc : occursB t ["crushing", "chest", "pain"] with
  | false => rfl
  | true =>
    exfalso
    obtain ⟨i, hmem, hmi⟩ := List.any_eq_true.mp hoc
    have hpre : listPrefixB ["crushing", "chest", "pain"] (t.drop i) = true := by
      simpa [matchAt] using hmi
    obtain ⟨tl, hdrop, hpre2⟩ := listPrefixB_cons_ex hpre
    obtain ⟨tl2, htl, hpre3⟩ := listPrefixB_cons_ex hpre2
    obtain ⟨tl3, htl2, _⟩ := listPrefixB_cons_ex hpre3
    have hlen : (t.drop i).length = tl3.length + 3 := by
      rw [hdrop, htl, htl2]; simp
    have hdl := List.length_drop i t
    have hlt : i + 1 < t.length := by omega
    have hdrop2 : t.drop (i + 1) = "chest" :: tl2 := by
      have h1 : t.drop (i + 1) = (t.drop i).drop 1 := by
        rw [List.drop_drop, Nat.add_comm]
      rw [h1, hdrop, htl, List.drop_succ_cons, List.drop_zero]
    have hm2 : matchAt t ["chest", "pain"] (i + 1) = true := by
      simp [matchAt, hdrop2, htl2, listPrefixB]
    have hall := List.all_eq_true.mp h (i + 1) (List.mem_range.mpr hlt)
    rw [hm2] at hall
    simp only [Bool.not_true, Bool.false_or] at hall
    have hh : (t.drop i).head? = some "crushing" := by rw [hdrop]; rfl
    rw [List.head?_drop] at hh
    simp [RedFlags.negAt, RedFlags.NEGATORS, List.getD_eq_getElem?_getD, hh] at hall

theorem allNeg_cardio_false {t : List String}
    (h : RedFlags.allOccurrencesNegated t ["chest", "pain"] = true) :
    RedFlags.cond_cardio t = false := by
  have hp := allNeg_present_false h
  have hc : RedFlags.present t ["crushing", "chest", "pain"] = false := by
    unfold RedFlags.present
    rw [allNeg_crushing_absent h]
    rfl
  simp [RedFlags.cond_cardio, RedFlags.anyP, hp, hc]

/-- Claim C1: if every occurrence of "chest pain" in the text is immediately
preceded by a negator, then no verdict of the Red-Flag Engine is produced on
account of that phrase: the cardio-combo rationale and the fallback
chest-pain rationale are both impossible.  (Other rules may still fire on
other phrases.) -/
theorem C1_negated_chest_pain_cannot_fire (t : List String) (ext : ExtractionResult)
    (h : RedFlags.allOccurrencesNegated t ["chest", "pain"] = true) :
    ∀ v, RedFlags.check_red_flags_detail t ext = some v →
      v.rationale ≠ "red_flags: chest pain + shortness of breath" ∧
      v.rationale ≠ "red_flags: chest pain" := by
  intro v hv
  have hcc := allNeg_cardio_false h
  have hp := allNeg_present_false h
  have hnc : ¬(RedFlags.cond_cardio t = true) := by simp [hcc]
  unfold RedFlags.check_red_flags_detail at hv
  rw [if_neg hnc] at hv
  by_cases h2 : RedFlags.cond_headache t = true
  · rw [if_pos h2] at hv; cases hv; exact ⟨by decide, by decide⟩
  rw [if_neg h2] at hv
  by_cases h3 : RedFlags.cond_meningitis t = true
  · rw [if_pos h3] at hv; cases hv; exact ⟨by decide, by decide⟩
  rw [if_neg h3] at hv
  by_cases h4 : RedFlags.cond_neuro t = true
  · rw [if_pos h4] at hv; cases hv; exact ⟨by decide, by decide⟩
  rw [if_neg h4] at hv
  by_cases h5 : RedFlags.cond_anaphylaxis t = true
  · rw [if_pos h5] at hv; cases hv; exact ⟨by decide, by decide⟩
  rw [if_neg h5] at hv
  by_cases h6 : RedFlags.cond_pregnancy t ext = true
  · rw [if_pos h6] at hv; cases hv; exact ⟨by decide, by decide⟩
  rw [if_neg h6] at hv
  by_cases h7 : RedFlags.cond_infant t ext = true
  · rw [if_pos h7] at hv; cases hv; exact ⟨by decide, by decide⟩
  rw [if_neg h7] at hv
  by_cases h8 : RedFlags.cond_overdose t = true
  · rw [if_pos h8] at hv; cases hv; exact ⟨by decide, by decide⟩
  rw [if_neg h8] at hv
  by_cases h9 : RedFlags.cond_trauma t = true
  · rw [if_pos h9] at hv; cases hv; exact ⟨by decide, by decide⟩
  rw [if_neg h9] at hv
  by_cases h10 : RedFlags.cond_mh t = true
  · rw [if_pos h10] at hv; cases hv; exact ⟨by decide, by decide⟩
  rw [if_neg h10] at hv
  by_cases h11 : RedFlags.cond_uti t = true
  · rw [if_pos h11] at hv; cases hv; exact ⟨by decide, by decide⟩
  rw [if_neg h11] at hv
  cases hE : RedFlags.firstPresent t RedFlags.EMERGENCY_KEYWORDS with
  | some s =>
    rw [hE] at hv
    cases hv
    obtain ⟨p, hmemE, hpres⟩ := firstPresent_some hE
    simp only [RedFlags.EMERGENCY_KEYWORDS, List.mem_cons, List.not_mem_nil, or_false,
      Prod.mk.injEq] at hmemE
    rcases hmemE with hkw | hkw | hkw | hkw | hkw | hkw | hkw | hkw | hkw | hkw | hkw |
      hkw | hkw | hkw | hkw | hkw
    all_goals obtain ⟨rfl, rfl⟩ := hkw
    all_goals first
      | exact ⟨by decide, by decide⟩
      | (rw [hp] at hpres; exact absurd hpres (by simp))
  | none =>
    rw [hE] at hv
    cases hU : RedFlags.firstPresent t RedFlags.URGENT_KEYWORDS with
    | some s =>
      rw [hU] at hv
      cases hv
      obtain ⟨p, hmemU, _⟩ := firstPresent_some hU
      simp only [RedFlags.URGENT_KEYWORDS, List.mem_cons, List.not_mem_nil, or_false,
        Prod.mk.injEq] at hmemU
      rcases hmemU with hkw | hkw | hkw | hkw | hkw | hkw
      all_goals obtain ⟨rfl, rfl⟩ := hkw
      all_goals exact ⟨by decide, by decide⟩
    | none =>
      rw [hU] at hv
      cases hv

theorem C1_negated_chest_pain_cannot_fire_witness :
    RedFlags.allOccurrencesNegated c1wText ["chest", "pain"] = true ∧
    (c1wVerdict.rationale ≠ "red_flags: chest pain + shortness of breath" ∧
     c1wVerdict.rationale ≠ "red_flags: chest pain") :=
  ⟨by decide,
    C1_negated_chest_pain_cannot_fire c1wText ⟨none, false, none⟩ (by decide)
      c1wVerdict (by decide)⟩

theorem pyMaxAux_mem (f : Nat → Rat) :
    ∀ (xs : List Nat) (b : Nat), Rank.pyMaxAux f b xs = b ∨ Rank.pyMaxAux f b xs ∈ xs := by
  intro xs
  induction xs with
  | nil => intro b; left; rfl
  | cons x rest ih =>
    intro b
    simp only [Rank.pyMaxAux]
    split
    · rcases ih x with h | h
      · right; rw [h]; exact List.mem_cons_self x rest
      · right; exact List.mem_cons_of_mem x h
    · rcases ih b with h | h
      · left; exact h
      · right; exact List.mem_cons_of_mem x h

theorem pyMax_mem {f : Nat → Rat} {l : List Nat} {m : Nat}
    (hm : Rank.pyMax f l = some m) : m ∈ l := by
  cases l with
  | nil => simp [Rank.pyMax] at hm
  | cons x xs =>
    simp only [Rank.pyMax, Option.some.injEq] at hm
    subst hm
    rcases pyMaxAux_mem f xs x with h | h
    · rw [h]; exact List.mem_cons_self x xs
    · exact List.mem_cons_of_mem x h

theorem pyMax_none_iff {f : Nat → Rat} {l : List Nat} :
    Rank.pyMax f l = none ↔ l = [] := by
  cases l <;> simp [Rank.pyMax]

theorem pyMaxAux_le (f : Nat → Rat) :
    ∀ (xs : List Nat) (b j : Nat), (j = b ∨ j ∈ xs) → f j ≤ f (Rank.pyMaxAux f b xs) := by
  intro xs
  induction xs with
  | nil =>
    intro b j hj
    rcases hj with heq | hj
    · rw [heq]; exact le_refl _
    · simp at hj
  | cons x rest ih =>
    intro b j hj
    simp only [Rank.pyMaxAux]
    by_cases hlt : f b < f x
    · rw [if_pos hlt]
      have hx : f x ≤ f (Rank.pyMaxAux f x rest) := ih x x (Or.inl rfl)
      rcases hj with heq | hj
      · rw [heq]; exact le_trans (le_of_lt hlt) hx
      · rcases List.mem_cons.mp hj with heq | hj2
        · rw [heq]; exact hx
        · exact ih x j (Or.inr hj2)
    · rw [if_neg hlt]
      have hb : f b ≤ f (Rank.pyMaxAux f b rest) := ih b b (Or.inl rfl)
      rcases hj with heq | hj
      · rw [heq]; exact hb
      · rcases List.mem_cons.mp hj with heq | hj2
        · rw [heq]; exact le_trans (not_lt.mp hlt) hb
        · exact ih b j (Or.inr hj2)

theorem pyMaxAux_first (f : Nat → Rat) :
    ∀ (xs : List Nat) (b : Nat), (b :: xs).Sorted (· ≤ ·) →
      ∀ j, (j = b ∨ j ∈ xs) → f (Rank.pyMaxAux f b xs) ≤ f j → Rank.pyMaxAux f b xs ≤ j := by
  intro xs
  induction xs with
  | nil =>
    intro b _ j hj _
    rcases hj with heq | hj
    · rw [heq]; exact le_refl b
    · simp at hj
  | cons x rest ih =>
    intro b hs j hj hle
    have hs1 := List.sorted_cons.mp hs
    simp only [Rank.pyMaxAux] at hle ⊢
    by_cases hlt : f b < f x
    · rw [if_pos hlt] at hle ⊢
      rcases hj with heq | hj
      · exfalso
        have hxm : f x ≤ f (Rank.pyMaxAux f x rest) := pyMaxAux_le f rest x x (Or.inl rfl)
        rw [heq] at hle
        exact lt_irrefl (f b) (lt_of_lt_of_le (lt_of_lt_of_le hlt hxm) hle)
      · rcases List.mem_cons.mp hj with heq | hj2
        · exact ih x hs1.2 j (Or.inl heq) hle
        · exact ih x hs1.2 j (Or.inr hj2) hle
    · rw [if_neg hlt] at hle ⊢
      have hbr : (b :: rest).Sorted (· ≤ ·) := by
        rw [List.sorted_cons]
        exact ⟨fun c hc => hs1.1 c (List.mem_cons_of_mem x hc),
          (List.sorted_cons.mp hs1.2).2⟩
      rcases hj with heq | hj
      · exact ih b hbr j (Or.inl heq) hle
      · rcases List.mem_cons.mp hj with heq | hj2
        · have hlex : f (Rank.pyMaxAux f b rest) ≤ f x := heq ▸ hle
          have hmb : Rank.pyMaxAux f b rest ≤ b :=
            ih b hbr b (Or.inl rfl) (le_trans hlex (not_lt.mp hlt))
          rw [heq]
          exact le_trans hmb (hs1.1 x (List.mem_cons_self x rest))
        · exact ih b hbr j (Or.inr hj2) hle

theorem pyMax_spec (f : Nat → Rat) (l : List Nat) (hs : l.Sorted (· ≤ ·)) (m : Nat)
    (hm : Rank.pyMax f l = some m) :
    m ∈ l ∧ (∀ j ∈ l, f j ≤ f m) ∧ (∀ j ∈ l, f m ≤ f j → m ≤ j) := by
  cases l with
  | nil => simp [Rank.pyMax] at hm
  | cons x xs =>
    simp only [Rank.pyMax, Option.some.injEq] at hm
    subst hm
    refine ⟨?_, ?_, ?_⟩
    · rcases pyMaxAux_mem f xs x with h | h
      · rw [h]; exact List.mem_cons_self x xs
      · exact List.mem_cons_of_mem x h
    · intro j hj
      rcases List.mem_cons.mp hj with heq | hj2
      · exact pyMaxAux_le f xs x j (Or.inl heq)
      · exact pyMaxAux_le f xs x j (Or.inr hj2)
    · intro j hj hle
      rcases List.mem_cons.mp hj with heq | hj2
      · exact pyMaxAux_first f xs x hs j (Or.inl heq) hle
      · exact pyMaxAux_first f xs x hs j (Or.inr hj2) hle

theorem mmrGo_prefix (lam : Rat) (qsim : Nat → Rat) (dsim : Nat → Nat → Rat) :
    ∀ (fuel : Nat) (sel cands : List Nat),
      ∃ r, Rank.mmrGo lam qsim dsim fuel sel cands = sel ++ r := by
  intro fuel
  induction fuel with
  | zero => intro sel cands; exact ⟨[], by simp [Rank.mmrGo]⟩
  | succ n ih =>
    intro sel cands
    simp only [Rank.mmrGo]
    cases hpick : (if sel.isEmpty then Rank.pyMax qsim cands
        else Rank.pyMax (Rank.mmrScore lam qsim dsim sel) cands) with
    | none => exact ⟨[], by simp⟩
    | some best =>
      obtain ⟨r, hr⟩ := ih (sel ++ [best]) (cands.erase best)
      exact ⟨best :: r, hr.trans (by simp)⟩

theorem mmrGo_perm (lam : Rat) (qsim : Nat → Rat) (dsim : Nat → Nat → Rat) :
    ∀ (n : Nat) (cands sel : List Nat), cands.length = n →
      (Rank.mmrGo lam qsim dsim n sel cands).Perm (sel ++ cands) := by
  intro n
  induction n with
  | zero =>
    intro cands sel h
    rw [List.length_eq_zero.mp h]
    simp [Rank.mmrGo]
  | succ n ih =>
    intro cands sel hlen
    simp only [Rank.mmrGo]
    cases hpick : (if sel.isEmpty then Rank.pyMax qsim cands
        else Rank.pyMax (Rank.mmrScore lam qsim dsim sel) cands) with
    | none =>
      exfalso
      have hc : cands = [] := by
        split at hpick
        · exact pyMax_none_iff.mp hpick
        · exact pyMax_none_iff.mp hpick
      rw [hc] at hlen
      simp at hlen
    | some best =>
      have hb : best ∈ cands := by
        split at hpick
        · exact pyMax_mem hpick
        · exact pyMax_mem hpick
      have hlen2 : (cands.erase best).length = n := by
        rw [List.length_erase_of_mem hb, hlen]
        rfl
      have hperm := ih (cands.erase best) (sel ++ [best]) hlen2
      refine hperm.trans ?_
      rw [List.append_assoc, List.singleton_append]
      exact List.Perm.append_left sel (List.perm_cons_erase hb).symm

/-- Claim C7: with `k ≥ n` the MMR selection is a permutation of all candidate
indices (each exactly once, in selection order), the first pick is decided
purely by query similarity, and the greedy arg-max primitive used at every
step of the loop (Python max with a key) resolves ties to the lowest-index
candidate: over any score function and any sorted candidate list — and the
candidate lists of the loop are always sorted, being erase-chains of
range n — the chosen m maximizes the score and is below every other
maximizer. -/
theorem C7_mmr_select_spec (qsim : Nat → Rat) (dsim : Nat → Nat → Rat) (n k : Nat)
    (lam : Rat) (hk : n ≤ k) (g : Nat → Rat) (cands : List Nat)
    (hs : cands.Sorted (· ≤ ·)) (m j : Nat) (hm : Rank.pyMax g cands = some m)
    (hj : j ∈ cands) :
    (Rank.mmr_select qsim dsim n k lam).Perm (List.range n) ∧
    (Rank.mmr_select qsim dsim n k lam).Nodup ∧
    (Rank.mmr_select qsim dsim n k lam).length = n ∧
    (Rank.mmr_select qsim dsim n k lam).head? = Rank.pyMax qsim (List.range n) ∧
    g j ≤ g m ∧ (g m ≤ g j → m ≤ j) := by
  have hmin : min k n = n := Nat.min_eq_right hk
  have hperm : (Rank.mmr_select qsim dsim n k lam).Perm (List.range n) := by
    have h0 := mmrGo_perm lam qsim dsim n (List.range n) [] (List.length_range n)
    unfold Rank.mmr_select
    rw [hmin]
    simpa using h0
  have hspec := pyMax_spec g cands hs m hm
  refine ⟨hperm, hperm.symm.nodup (List.nodup_range n),
    hperm.length_eq.trans (List.length_range n), ?_, hspec.2.1 j hj, hspec.2.2 j hj⟩
  cases n with
  | zero =>
    have he : Rank.mmr_select qsim dsim 0 k lam = [] := by
      unfold Rank.mmr_select
      rw [Nat.min_zero]
      rfl
    rw [he]
    rfl
  | succ nm =>
    unfold Rank.mmr_select
    rw [hmin]
    simp only [Rank.mmrGo, List.isEmpty_nil, if_true]
    cases hp : Rank.pyMax qsim (List.range (nm + 1)) with
    | none => exact absurd (pyMax_none_iff.mp hp) (by simp)
    | some b =>
      obtain ⟨r, hr⟩ := mmrGo_prefix lam qsim dsim nm ([] ++ [b]) ((List.range (nm + 1)).erase b)
      show (Rank.mmrGo lam qsim dsim nm ([] ++ [b]) ((List.range (nm + 1)).erase b)).head?
        = some b
      rw [hr]
      rfl

theorem C7_mmr_select_spec_witness :
    (Rank.mmr_select c7q c7d 3 5 (7 / 10)).Perm (List.range 3) ∧
    (Rank.mmr_select c7q c7d 3 5 (7 / 10)).Nodup ∧
    (Rank.mmr_select c7q c7d 3 5 (7 / 10)).length = 3 ∧
    (Rank.mmr_select c7q c7d 3 5 (7 / 10)).head? = Rank.pyMax c7q (List.range 3) ∧
    c7g 2 ≤ c7g 1 ∧ (c7g 1 ≤ c7g 2 → 1 ≤ 2) :=
  C7_mmr_select_spec c7q c7d 3 5 (7 / 10) (by decide) c7g [0, 1, 2] (by decide) 1 2
    (by decide) (by decide)
